import Mathlib

/-!
Verification of the frame-telemetry collector in `devlib/utils/rendering.py`
(Python 2 source). The definitions below are shallow embeddings of the
source functions; machine integers are modelled as `Int` (frame timestamps
fit comfortably, no wrap-around is exercised by the source), optional
session state (`None` in the source) as `Option`, and fallible functions
return `Except`.

Python 2 detail that matters throughout: `None` compares less than every
integer, so `x <= None` is `False` and `x > None` is `True` for any int
`x`. The two helpers below encode exactly those mixed comparisons as they
occur in `SurfaceFlingerFrameCollector._process_trace_line`.
-/

set_option autoImplicit false

namespace Rendering

/-- `SurfaceFlingerFrame` namedtuple: one latency-trace frame record. -/
structure SurfaceFlingerFrame where
  desired_present_time : Int
  actual_present_time : Int
  frame_ready_time : Int
  deriving Repr, DecidableEq

/-- Python 2 truth of `x <= y` where `y` is an int-or-None: `None` is
smaller than every int, so the comparison is `False` when `y` is `None`. -/
def py2LeOpt (x : Int) (y : Option Int) : Bool :=
  match y with
  | none => false
  | some v => x ≤ v

/-- Python 2 truth of `x > y` where `y` is an int-or-None: `None` is
smaller than every int, so the comparison is `True` when `y` is `None`. -/
def py2GtOpt (x : Int) (y : Option Int) : Bool :=
  match y with
  | none => true
  | some v => v < x

/-- The mutable fields of `SurfaceFlingerFrameCollector` read or written by
`_process_trace_line` (all initialised in `FrameCollector.__init__`):
`refresh_period = None`, `drop_threshold = None`, `last_ready_time = None`,
`frames = []`, `unresponsive_count = 0`. -/
structure SFState where
  refresh_period : Option Int
  drop_threshold : Option Int
  last_ready_time : Option Int
  frames : List SurfaceFlingerFrame
  unresponsive_count : Nat
  deriving Repr, DecidableEq

/-- Collector state right after `FrameCollector.__init__`. -/
def initSF : SFState :=
  { refresh_period := none
    drop_threshold := none
    last_ready_time := none
    frames := []
    unresponsive_count := 0 }

/-- One non-empty trace line after `line.split()` tokenisation:
`ints toks` is a line all of whose whitespace-separated tokens parse as
integers (the only lines the integer branches of `_process_trace_line`
can take without raising), `unresponsiveMarker` is a line containing the
literal unresponsive message, and `otherLine` is any other line (which the
source only logs). -/
inductive TraceLine where
  | ints : List Int → TraceLine
  | unresponsiveMarker : TraceLine
  | otherLine : TraceLine
  deriving Repr, DecidableEq

/-- `SurfaceFlingerFrameCollector._process_trace_line`: a 3-token line is a
candidate frame, rejected when `frame_ready_time` is zero, when
`frame_ready_time <= last_ready_time` (Python 2 comparison with a possible
`None`), or when `frame_ready_time - desired_present_time > drop_threshold`
(again a Python 2 comparison with a possible `None`, which is then always
true); otherwise the watermark advances and the frame is appended. A
1-token line overwrites `refresh_period` and recomputes
`drop_threshold = refresh_period * 1000`. The unresponsive marker bumps
`unresponsive_count`; anything else is logged and ignored. -/
def process_trace_line (s : SFState) (l : TraceLine) : SFState :=
  match l with
  | .ints [d, a, r] =>
      if r = 0 then s
      else if py2LeOpt r s.last_ready_time then s
      else if py2GtOpt (r - d) s.drop_threshold then s
      else { s with last_ready_time := some r
                    frames := s.frames ++ [⟨d, a, r⟩] }
  | .ints [p] =>
      { s with refresh_period := some p
               drop_threshold := some (p * 1000) }
  | .ints _ => s
  | .unresponsiveMarker => { s with unresponsive_count := s.unresponsive_count + 1 }
  | .otherLine => s

/-- `SurfaceFlingerFrameCollector._process_raw_file`: the raw text is
normalised and split into lines, and each non-empty stripped line is fed to
`_process_trace_line` in file order. -/
def process_raw_file_sf (s : SFState) (lines : List TraceLine) : SFState :=
  lines.foldl process_trace_line s

/-! String machinery. The source manipulates Python 2 byte strings; they
are modelled as Lean `String`s (the inputs exercised are ASCII), with the
needed operations implemented structurally over the character list so that
they evaluate inside the kernel. -/

/-- Characters removed by Python `str.strip()` with no argument. -/
def isPySpace (c : Char) : Bool :=
  c = ' ' ∨ c = '\t' ∨ c = '\n' ∨ c = '\r' ∨ c = '\x0b' ∨ c = '\x0c'

/-- Python `line.strip()`: surrounding whitespace removed. -/
def pyStrip (s : String) : String :=
  ⟨((s.data.dropWhile isPySpace).reverse.dropWhile isPySpace).reverse⟩

/-- Python `s.startswith(pre)`. -/
def pyStartsWith (s pre : String) : Bool :=
  pre.data.isPrefixOf s.data

/-- Python slice `s[n:]` (also used for `buf[ix:]`). -/
def pyDrop (s : String) (n : Nat) : String :=
  ⟨s.data.drop n⟩

/-- Python `fh.read(n)` from the current position, modelled as a prefix. -/
def pyTake (s : String) (n : Nat) : String :=
  ⟨s.data.take n⟩

def splitOnCharAux (c : Char) : List Char → List Char → List (List Char)
  | [], acc => [acc.reverse]
  | x :: xs, acc =>
      if x = c then acc.reverse :: splitOnCharAux c xs []
      else splitOnCharAux c xs (x :: acc)

/-- Python `s.split(sep)` for a one-character separator (the source only
splits on `','`): empty fields are kept, so `'1,2,3,'` yields a trailing
empty field. -/
def pySplitChar (s : String) (c : Char) : List String :=
  (splitOnCharAux c s.data []).map (fun cs => ⟨cs⟩)

def digitsToNat : List Char → Nat → Nat
  | [], acc => acc
  | c :: cs, acc => digitsToNat cs (acc * 10 + (c.toNat - 48))

/-- Python `int(tok)` on the decimal integer literals the trace data
contains (an optional leading minus then digits). On malformed tokens the
source raises `ValueError`; such tokens never reach this model in the
behaviour the claims exercise. -/
def pyInt (s : String) : Int :=
  match s.data with
  | '-' :: cs => -(digitsToNat cs 0 : Int)
  | cs => (digitsToNat cs 0 : Int)

def findSubAux (pat : List Char) : List Char → Nat → Option Nat
  | [], i => if pat = [] then some i else none
  | x :: xs, i =>
      if pat.isPrefixOf (x :: xs) then some i
      else findSubAux pat xs (i + 1)

/-- Python `s.find(pat)` restricted to what the source tests: the least
index at which `pat` occurs in `s`, or `none` (the source's `-1`, only ever
compared against `>= 0`). -/
def strFind (s pat : String) : Option Nat :=
  findSubAux pat.data s.data 0

/-- Python 2 file iteration (`for line in fh` / `fh.next()`): the file's
lines, each keeping its trailing newline; a final fragment with no newline
is also yielded. -/
def pyReadLines (s : String) : List String :=
  let parts := pySplitChar s '\n'
  let withNl := parts.dropLast.map (fun p => p ++ "\n")
  match parts.getLast? with
  | some last => if last = "" then withNl else withNl ++ [last]
  | none => []

/-! `GfxinfoFrameCollector._process_raw_file`. -/

/-- `line.startswith('---PROFILEDATA---')`. -/
def isProfileMarker (l : String) : Bool :=
  pyStartsWith l "---PROFILEDATA---"

/-- One gfxinfo data line: `line.strip().split(',')[:-1]` parsed as
integers (the last comma-separated field is always empty in the source's
output and is dropped). -/
def gfxParseRow (l : String) : List Int :=
  ((pySplitChar (pyStrip l) ',').dropLast).map pyInt

/-- Which loop of `GfxinfoFrameCollector._process_raw_file` the scan is in:
`seeking` is the first `for` (scan for an opening marker), `headerSkip` is
the `fh.next()` that discards the header line, `reading` is the second
`for` (accumulate data rows until the closing marker). Running out of lines
in any phase is the `StopIteration` the source catches and ignores. -/
inductive GfxPhase where
  | seeking
  | headerSkip
  | reading
  deriving Repr, DecidableEq

/-- The `while True` scan of `_process_raw_file`, phase by phase over the
remaining lines; rows are produced in file order. -/
def gfxScan : GfxPhase → List String → List (List Int)
  | _, [] => []
  | .seeking, l :: ls =>
      if isProfileMarker l then gfxScan .headerSkip ls else gfxScan .seeking ls
  | .headerSkip, _ :: ls => gfxScan .reading ls
  | .reading, l :: ls =>
      if isProfileMarker l then gfxScan .seeking ls
      else gfxParseRow l :: gfxScan .reading ls

/-- `GfxinfoFrameCollector._process_raw_file`: the rows scanned from the raw
text's lines are appended to the collector's `frames` (the `found` flag only
controls a warning and has no effect on the frames). -/
def gfx_process_raw_file (frames : List (List Int)) (content : String) : List (List Int) :=
  frames ++ gfxScan .seeking (pyReadLines content)

/-! `FrameCollector.write_frames`. -/

/-- The loop `for c in columns:` of `write_frames`: checks each requested
column against the header in order and collects `header.index(c)`; the
first unknown column raises `ValueError('Invalid column "{c}"; must be in
{header}')`, modelled as `Except.error (c, header)` — the offending column
paired with the valid set it is reported with. -/
def build_indexes (header : List String) : List String → Except (String × List String) (List Nat)
  | [] => .ok []
  | c :: cs =>
      if c ∈ header then
        match build_indexes header cs with
        | .ok is => .ok (header.indexOf c :: is)
        | .error e => .error e
      else .error (c, header)

/-- `FrameCollector.write_frames`. The `csv` module is an external
collaborator; its observable output is modelled as the list of rows written:
the header row (skipped when falsy — `if header:`) followed by one row of
decimal-rendered cells per frame. Cells are `Int`s; `f[i]` with `i` in
range (the session invariant) is modelled as `List.getD f i 0`. -/
def write_frames (header : List String) (frames : List (List Int)) :
    Option (List String) → Except (String × List String) (List (List String))
  | none =>
      .ok ((if header.isEmpty then [] else [header]) ++
        frames.map (fun f => f.map toString))
  | some columns =>
      match build_indexes header columns with
      | .error e => .error e
      | .ok indexes =>
          .ok ((if columns.isEmpty then [] else [columns]) ++
            (frames.map (fun f => indexes.map (fun i => f.getD i 0))).map
              (fun f => f.map toString))

/-! `_file_reverse_iter` and `gfxinfo_get_last_dump`. -/

/-- The loop of `_file_reverse_iter(fh, buf_size)`: `remaining` is the
source's `remaining_size` (an int that goes negative on the last step),
`offset` the source's `offset`; each step seeks to
`file_size - min(file_size, offset + buf_size)` and reads
`min(remaining_size, buf_size)` bytes. The `fuel` argument is only a
structural-termination device: it starts above the number of iterations
(each iteration subtracts `buf_size ≥ 1` from `remaining`), so the
fuel-exhaustion branch is never the one that stops a real scan. -/
def revChunksAux (content : String) (b : Nat) : Nat → Int → Nat → List String
  | 0, _, _ => []
  | fuel + 1, remaining, offset =>
      if 0 < remaining then
        let offset2 := min content.length (offset + b)
        let buf := pyTake (pyDrop content (content.length - offset2)) (min remaining.toNat b)
        buf :: revChunksAux content b fuel (remaining - (b : Int)) offset2
      else []

/-- `_file_reverse_iter`: the chunks yielded, the file's final chunk first,
earlier chunks after it. -/
def file_reverse_iter (content : String) (b : Nat) : List String :=
  revChunksAux content b (content.length + 1) (content.length : Int) 0

/-- The scan loop of `gfxinfo_get_last_dump` over the backward chunk
sequence, with `record` the accumulated tail text. `Except.error` models
the `RuntimeError('"{filepath}" appears to be corrupted')`; `Except.ok
none` models falling out of the loop when the chunks are exhausted
(`StopIteration` caught, implicit `return None`). -/
def gfxLastDumpScan (filepath : String) : List String → String → Except String (Option String)
  | [], _ => .ok none
  | buf :: rest, record =>
      match strFind buf "** Graphics" with
      | some ix => .ok (some (pyDrop buf ix ++ record))
      | none =>
          match strFind buf " **\n" with
          | some _ =>
              match rest with
              | [] => .ok none
              | buf2 :: _ =>
                  let combined := buf2 ++ buf
                  match strFind combined "** Graphics" with
                  | none => .error ("\"" ++ filepath ++ "\" appears to be corrupted")
                  | some ix => .ok (some (pyDrop combined ix ++ record))
          | none => gfxLastDumpScan filepath rest (buf ++ record)

/-- `gfxinfo_get_last_dump(filepath)` on a file whose text is `content`:
scan the file backward in 1024-byte chunks for the last dump block. -/
def gfxinfo_get_last_dump (filepath content : String) : Except String (Option String) :=
  gfxLastDumpScan filepath (file_reverse_iter content 1024) ""

/-! `FrameCollector` session lifecycle. -/

/-- The `FrameCollector` lifecycle fields that `run`/`stop`/`process_frames`
consult: `temp_file` (the raw-sink path — `None` from `__init__` until
`run` creates it, and again after `process_frames` consumes it) and whether
the background loop is still running. File-system effects of
`process_frames` (parsing the sink, the optional copy, `os.unlink`) are
abstracted; its state effect is clearing `temp_file`. -/
structure CState where
  temp_file : Option String
  loopRunning : Bool
  deriving Repr, DecidableEq

/-- Lifecycle state right after `FrameCollector.__init__`. -/
def initCollector : CState :=
  { temp_file := none, loopRunning := false }

/-- `FrameCollector.run` entering its loop: `tempfile.mkstemp()` sets
`self.temp_file` and the sampling loop is live from then on. -/
def collector_run (s : CState) (path : String) : CState :=
  { s with temp_file := some path, loopRunning := true }

/-- `FrameCollector.stop`: sets the stop signal and joins the thread; the
loop is no longer running afterwards. -/
def collector_stop (s : CState) : CState :=
  { s with loopRunning := false }

/-- `FrameCollector.process_frames`: `if not self.temp_file: raise
RuntimeError('Attempting to process frames before running the collector')`;
otherwise the sink is parsed and deleted and `self.temp_file = None`. Note
the guard reads only `temp_file` — it does not consult the running state. -/
def process_frames (s : CState) : Except String CState :=
  if s.temp_file.isNone then
    .error "Attempting to process frames before running the collector"
  else .ok { s with temp_file := none }

/-! Helper lemmas about the Python 2 optional comparisons. -/

theorem py2LeOpt_eq_false_iff (r : Int) (o : Option Int) :
    py2LeOpt r o = false ↔ ∀ w, o = some w → w < r := by
  cases o with
  | none => simp [py2LeOpt]
  | some w => simp [py2LeOpt, Int.not_le]

theorem py2GtOpt_some_eq_false_iff (x t : Int) :
    py2GtOpt x (some t) = false ↔ x ≤ t := by
  simp [py2GtOpt, Int.not_lt]

theorem frames_ne_append (l : List SurfaceFlingerFrame) (f : SurfaceFlingerFrame) :
    l ≠ l ++ [f] := by
  intro h
  have hl := congrArg List.length h
  simp at hl

/-- C1: a three-integer-token line `(desired, actual, ready)` is accepted into
the frame table (appended, with the watermark advanced to `ready`) iff
`ready ≠ 0`, `ready` exceeds the current watermark `last_ready_time`, and
`ready - desired ≤ drop_threshold`; otherwise the whole collector state is
left unchanged (no emission). Stated for a session whose drop threshold has
been learned (`drop_threshold = some t`). -/
theorem C1_latency_frame_accept_iff (s : SFState) (t d a r : Int)
    (ht : s.drop_threshold = some t) :
    (((process_trace_line s (.ints [d, a, r])).frames = s.frames ++ [⟨d, a, r⟩] ∧
      (process_trace_line s (.ints [d, a, r])).last_ready_time = some r) ↔
      (r ≠ 0 ∧ (∀ w, s.last_ready_time = some w → w < r) ∧ r - d ≤ t)) ∧
    (¬(r ≠ 0 ∧ (∀ w, s.last_ready_time = some w → w < r) ∧ r - d ≤ t) →
      process_trace_line s (.ints [d, a, r]) = s) := by
  simp only [process_trace_line]
  split_ifs with h0 h1 h2
  · exact ⟨⟨fun h => absurd h.1 (frames_ne_append _ _), fun h => absurd h0 h.1⟩,
      fun _ => rfl⟩
  · have hw : ¬(∀ w, s.last_ready_time = some w → w < r) := by
      intro hw
      have hf := (py2LeOpt_eq_false_iff r s.last_ready_time).mpr hw
      rw [h1] at hf
      exact absurd hf (by decide)
    exact ⟨⟨fun h => absurd h.1 (frames_ne_append _ _), fun h => absurd h.2.1 hw⟩,
      fun _ => rfl⟩
  · have hthr : ¬(r - d ≤ t) := by
      intro hle
      have hf := (py2GtOpt_some_eq_false_iff (r - d) t).mpr hle
      rw [ht] at h2
      rw [h2] at hf
      exact absurd hf (by decide)
    exact ⟨⟨fun h => absurd h.1 (frames_ne_append _ _), fun h => absurd h.2.2 hthr⟩,
      fun _ => rfl⟩
  · have h1f : py2LeOpt r s.last_ready_time = false := by
      simpa using h1
    have h2f : py2GtOpt (r - d) (some t) = false := by
      rw [ht] at h2
      simpa using h2
    have hw := (py2LeOpt_eq_false_iff r s.last_ready_time).mp h1f
    have hthr := (py2GtOpt_some_eq_false_iff (r - d) t).mp h2f
    exact ⟨⟨fun _ => ⟨h0, hw, hthr⟩, fun _ => ⟨rfl, rfl⟩⟩,
      fun hc => absurd ⟨h0, hw, hthr⟩ hc⟩

/-- Witness for C1: after learning refresh period 1000 (threshold 1000000),
the concrete frame (0, 0, 5) is accepted. -/
theorem C1_latency_frame_accept_iff_witness :
    (process_trace_line initSF (.ints [1000])).drop_threshold = some 1000000 ∧
    (process_trace_line (process_trace_line initSF (.ints [1000]))
      (.ints [0, 0, 5])).frames = [⟨0, 0, 5⟩] := by
  refine ⟨rfl, ?_⟩
  have hcond : (5 : Int) ≠ 0 ∧
      (∀ w, (process_trace_line initSF (.ints [1000])).last_ready_time = some w → w < 5) ∧
      (5 : Int) - 0 ≤ 1000000 := by
    refine ⟨by decide, ?_, by decide⟩
    intro w hw
    simp [process_trace_line, initSF] at hw
  have h := (C1_latency_frame_accept_iff (process_trace_line initSF (.ints [1000]))
      1000000 0 0 5 rfl).1.mpr hcond
  rw [h.1]
  decide

/-- C2 counterexample: the single-integer branch overwrites the refresh
period every time it fires, so a second single-integer line (`2` after `1`)
changes `refresh_period`/`drop_threshold`, and a subsequent frame with
latency 1500 is judged against the new threshold 2000, not the first one
(1000). -/
theorem C2_threshold_counterexample :
    (process_raw_file_sf initSF [.ints [1]]).drop_threshold = some 1000 ∧
    (process_raw_file_sf initSF [.ints [1], .ints [2]]).drop_threshold = some 2000 ∧
    (process_raw_file_sf initSF [.ints [1], .ints [2]]).refresh_period = some 2 ∧
    (process_raw_file_sf initSF [.ints [1], .ints [2], .ints [0, 0, 1500]]).frames
      = [⟨0, 0, 1500⟩] := by decide

/-- C2 (amended): every single-integer line sets `refresh_period` to its
value and `drop_threshold` to `refresh_period * 1000`, overwriting any
previous values; the latest single-integer line before a frame line is the
one governing that frame. -/
theorem C2_threshold_overwrite (s : SFState) (p : Int) :
    process_trace_line s (.ints [p]) =
      { s with refresh_period := some p, drop_threshold := some (p * 1000) } := rfl

/-- C3: acceptance is order-sensitive. With refresh period 100 (threshold
100000), the frames (0,0,1), (0,0,2), (0,0,3) are each individually valid,
parsing them with ready times strictly increasing accepts all three, and
parsing them in the non-monotonic order 3, 1, 2 accepts only one. -/
theorem C3_order_sensitivity :
    (process_raw_file_sf initSF [.ints [100], .ints [0, 0, 1]]).frames.length = 1 ∧
    (process_raw_file_sf initSF [.ints [100], .ints [0, 0, 2]]).frames.length = 1 ∧
    (process_raw_file_sf initSF [.ints [100], .ints [0, 0, 3]]).frames.length = 1 ∧
    (process_raw_file_sf initSF
      [.ints [100], .ints [0, 0, 1], .ints [0, 0, 2], .ints [0, 0, 3]]).frames.length = 3 ∧
    (process_raw_file_sf initSF
      [.ints [100], .ints [0, 0, 3], .ints [0, 0, 1], .ints [0, 0, 2]]).frames.length = 1 := by
  decide

/-- C9 counterexample: on the freshly initialised session (no refresh-period
line seen, `drop_threshold = None`), the frame (0, 0, 5) with non-zero ready
time is NOT accepted: the state is left unchanged, because in Python 2
`(ready - desired) > None` is always true, so the bogus-frame check rejects
it. -/
theorem C9_unset_threshold_counterexample :
    initSF.drop_threshold = none ∧ (5 : Int) ≠ 0 ∧
    process_trace_line initSF (.ints [0, 0, 5]) = initSF := by decide

/-- C9 (amended): while `drop_threshold` is unset the parser does not raise,
and the duplicate comparison against an unset watermark never rejects
(`ready <= None` is false), but the bogus-frame comparison
`(ready - desired) > None` is always true under Python 2 ordering, so every
three-integer frame line is rejected and the state is unchanged until a
refresh-period line is seen. -/
theorem C9_unset_threshold_rejects (s : SFState) (d a r : Int)
    (h : s.drop_threshold = none) :
    py2LeOpt r none = false ∧ py2GtOpt (r - d) none = true ∧
    process_trace_line s (.ints [d, a, r]) = s := by
  refine ⟨rfl, rfl, ?_⟩
  simp only [process_trace_line]
  split_ifs with h0 h1 h2
  · rfl
  · rfl
  · rfl
  · rw [h] at h2
    exact absurd rfl h2

/-- Witness for C9 (amended) at the initial session state and the concrete
frame (0, 0, 5). -/
theorem C9_unset_threshold_rejects_witness :
    py2LeOpt 5 none = false ∧ py2GtOpt (5 - 0) none = true ∧
    process_trace_line initSF (.ints [0, 0, 5]) = initSF :=
  C9_unset_threshold_rejects initSF 0 0 5 rfl

/-- C4: the synthetic gfxinfo block parses to exactly the rows [1,2,3] and
[4,5,6] in file order, the header line is skipped, and the trailing empty
comma-separated field is dropped from every data line. -/
theorem C4_gfx_block_roundtrip :
    gfx_process_raw_file []
      "---PROFILEDATA---\nA,B,C,\n1,2,3,\n4,5,6,\n---PROFILEDATA---\n"
      = [[1, 2, 3], [4, 5, 6]] := by decide

/-! Helper lemmas about `build_indexes`. -/

theorem build_indexes_ok (header : List String) :
    ∀ cols : List String, (∀ c ∈ cols, c ∈ header) →
      build_indexes header cols = .ok (cols.map (fun c => header.indexOf c))
  | [], _ => rfl
  | c :: cs, h => by
      have hc : c ∈ header := h c (List.mem_cons_self c cs)
      have ih := build_indexes_ok header cs (fun x hx => h x (List.mem_cons_of_mem c hx))
      unfold build_indexes
      rw [if_pos hc, ih]
      rfl

theorem build_indexes_error (header : List String) :
    ∀ (cols : List String) (e : String × List String),
      build_indexes header cols = .error e →
      e.1 ∈ cols ∧ e.1 ∉ header ∧ e.2 = header
  | [], e, h => by simp [build_indexes] at h
  | c :: cs, e, h => by
      by_cases hc : c ∈ header
      · unfold build_indexes at h
        rw [if_pos hc] at h
        cases hrec : build_indexes header cs with
        | ok is =>
            rw [hrec] at h
            simp at h
        | error e2 =>
            rw [hrec] at h
            simp at h
            have ih := build_indexes_error header cs e2 hrec
            rw [← h]
            exact ⟨List.mem_cons_of_mem c ih.1, ih.2.1, ih.2.2⟩
      · unfold build_indexes at h
        rw [if_neg hc] at h
        simp at h
        rw [← h]
        exact ⟨List.mem_cons_self c cs, hc, rfl⟩

theorem build_indexes_error_exists (header : List String) :
    ∀ cols : List String, (∃ c ∈ cols, c ∉ header) →
      ∃ e, build_indexes header cols = .error e
  | [], h => absurd h (by simp)
  | c :: cs, h => by
      by_cases hc : c ∈ header
      · have hcs : ∃ x ∈ cs, x ∉ header := by
          rcases h with ⟨x, hx, hxn⟩
          rcases List.mem_cons.mp hx with rfl | hx2
          · exact absurd hc hxn
          · exact ⟨x, hx2, hxn⟩
        rcases build_indexes_error_exists header cs hcs with ⟨e, he⟩
        refine ⟨e, ?_⟩
        unfold build_indexes
        rw [if_pos hc, he]
      · refine ⟨(c, header), ?_⟩
        unfold build_indexes
        rw [if_neg hc]

/-- C5: with an explicit column list, `write_frames` fails — with an error
naming the offending column and the valid header set — iff some requested
column is not in the session header; otherwise it emits the requested
column names as the first row followed by one decimal-rendered row per
stored frame, projected to the requested columns in the requested order. -/
theorem C5_write_frames_spec (header : List String) (frames : List (List Int))
    (cols : List String) :
    ((∃ e, write_frames header frames (some cols) = .error e) ↔
      ∃ c ∈ cols, c ∉ header) ∧
    (∀ e, write_frames header frames (some cols) = .error e →
      e.1 ∈ cols ∧ e.1 ∉ header ∧ e.2 = header) ∧
    ((∀ c ∈ cols, c ∈ header) →
      write_frames header frames (some cols) =
        .ok ((if cols.isEmpty then [] else [cols]) ++
          frames.map (fun f =>
            (cols.map (fun c => f.getD (header.indexOf c) 0)).map toString))) := by
  have herr : ∀ e, write_frames header frames (some cols) = .error e ↔
      build_indexes header cols = .error e := by
    intro e
    cases hbi : build_indexes header cols with
    | ok is => simp [write_frames, hbi]
    | error e2 => simp [write_frames, hbi]
  refine ⟨?_, ?_, ?_⟩
  · constructor
    · rintro ⟨e, he⟩
      have h := build_indexes_error header cols e ((herr e).mp he)
      exact ⟨e.1, h.1, h.2.1⟩
    · intro hex
      rcases build_indexes_error_exists header cols hex with ⟨e, he⟩
      exact ⟨e, (herr e).mpr he⟩
  · intro e he
    exact build_indexes_error header cols e ((herr e).mp he)
  · intro hall
    simp only [write_frames, build_indexes_ok header cols hall]
    simp [List.map_map, Function.comp]

/-- Witness for C5 on the spec's example table: projecting column B from
header [A, B, C] with rows [1,2,3] and [4,5,6] emits the rows B / 2 / 5,
and requesting B against header [A, C] fails. -/
theorem C5_write_frames_spec_witness :
    write_frames ["A", "B", "C"] [[1, 2, 3], [4, 5, 6]] (some ["B"])
      = .ok [["B"], ["2"], ["5"]] ∧
    (∃ e, write_frames ["A", "C"] [[1, 2, 3], [4, 5, 6]] (some ["B"]) = .error e) := by
  constructor
  · have h := (C5_write_frames_spec ["A", "B", "C"] [[1, 2, 3], [4, 5, 6]] ["B"]).2.2
      (by decide)
    rw [h]
    rfl
  · exact ((C5_write_frames_spec ["A", "C"] [[1, 2, 3], [4, 5, 6]] ["B"]).1).mpr
      (by decide)

/-- C6 (code bug): `gfxinfo_get_last_dump` locates `** Graphics` with
`str.find`, which yields the FIRST occurrence inside the backward-read
chunk. On the file `"** Graphics A\n** Graphics B\n"` — two dump blocks,
both inside the final 1024-byte chunk — it returns the whole file, not the
suffix from the last marker occurrence (index 14, i.e. `"** Graphics B\n"`),
contradicting its own docstring ("Return the last gfxinfo dump"). -/
theorem C6_last_dump_first_find :
    gfxinfo_get_last_dump "raw.txt" "** Graphics A\n** Graphics B\n"
      = .ok (some "** Graphics A\n** Graphics B\n") ∧
    pyDrop "** Graphics A\n** Graphics B\n" 14 = "** Graphics B\n" ∧
    strFind (pyDrop "** Graphics A\n** Graphics B\n" 14) "** Graphics" = some 0 ∧
    strFind (pyDrop "** Graphics A\n** Graphics B\n" 15) "** Graphics" = none ∧
    "** Graphics A\n** Graphics B\n" ≠ "** Graphics B\n" :=
  ⟨rfl, by decide, by decide, by decide, by decide⟩

/-- C7: during the backward scan, a chunk containing the block-end marker
` **\n` but not `** Graphics` causes exactly one more chunk to be read and
the combined buffer re-checked: if the start marker is still absent the
scan fails with the corruption error naming the file path, and otherwise it
returns the combined buffer from the start marker, followed by the
accumulated tail. -/
theorem C7_glue_step (filepath buf buf2 record : String) (rest : List String)
    (h1 : strFind buf "** Graphics" = none)
    (h2 : (strFind buf " **\n").isSome) :
    gfxLastDumpScan filepath (buf :: buf2 :: rest) record =
      match strFind (buf2 ++ buf) "** Graphics" with
      | none => .error ("\"" ++ filepath ++ "\" appears to be corrupted")
      | some ix => .ok (some (pyDrop (buf2 ++ buf) ix ++ record)) := by
  rcases Option.isSome_iff_exists.mp h2 with ⟨j, hj⟩
  simp only [gfxLastDumpScan, h1, hj]

/-- Witness for C7: the dump header line `** Graphics **\n` split across a
chunk boundary as `** Graphic` / `s **\n` is recovered by the one-chunk
glue, returning the combined match plus the accumulated tail. -/
theorem C7_glue_step_witness :
    strFind "s **\n" "** Graphics" = none ∧
    (strFind "s **\n" " **\n").isSome = true ∧
    gfxLastDumpScan "f" ["s **\n", "** Graphic"] "TAIL"
      = .ok (some ("** Graphics **\n" ++ "TAIL")) := by
  refine ⟨by decide, by decide, ?_⟩
  have h := C7_glue_step "f" "s **\n" "** Graphic" "TAIL" [] (by decide) (by decide)
  rw [h]
  rfl

/-- C8 counterexample: `process_frames` guards only on `temp_file`, which
`run` sets as soon as the loop starts; called while the background loop is
still running it succeeds instead of failing, so the claimed mid-run
precondition failure does not happen. -/
theorem C8_midrun_counterexample :
    (collector_run initCollector "tmp").loopRunning = true ∧
    process_frames (collector_run initCollector "tmp")
      = .ok { temp_file := none, loopRunning := true } :=
  ⟨rfl, rfl⟩

/-- C8 (amended): `process_frames` fails with the precondition error iff the
raw-sink reference `temp_file` is unset — before the collector has ever run,
or after a previous successful `process_frames`. It performs no check on the
running state, so a call made while the loop is still running proceeds to
read the sink. -/
theorem C8_precondition (s : CState) :
    (process_frames s = .error "Attempting to process frames before running the collector"
      ↔ s.temp_file = none) ∧
    (s.temp_file ≠ none → process_frames s = .ok { s with temp_file := none }) := by
  unfold process_frames
  rcases hs : s.temp_file with _ | p <;> simp [hs]

/-- Witness for C8 (amended): before any run the precondition error fires;
mid-run (after `run`, before `stop`) the call succeeds. -/
theorem C8_precondition_witness :
    process_frames initCollector
      = .error "Attempting to process frames before running the collector" ∧
    process_frames (collector_run initCollector "t")
      = .ok { temp_file := none, loopRunning := true } := by
  constructor
  · exact (C8_precondition initCollector).1.mpr rfl
  · have h := (C8_precondition (collector_run initCollector "t")).2 (by decide)
    rw [h]
    rfl

/-- C10: `process_frames` succeeds at most once per session: a successful
call clears the sink reference, so a second call on the resulting state
fails with the same precondition error as calling it before the collector
has ever run. -/
theorem C10_process_frames_once (s s2 : CState)
    (h : process_frames s = .ok s2) :
    s2.temp_file = none ∧
    process_frames s2
      = .error "Attempting to process frames before running the collector" := by
  unfold process_frames at h
  by_cases hn : s.temp_file.isNone
  · rw [if_pos hn] at h
    exact absurd h (by simp)
  · rw [if_neg hn] at h
    injection h with h
    rw [← h]
    exact ⟨rfl, rfl⟩

/-- Witness for C10: one successful `process_frames` after a run, then the
second call on the resulting state fails. -/
theorem C10_process_frames_once_witness :
    process_frames (collector_run initCollector "t")
      = .ok { temp_file := none, loopRunning := true } ∧
    process_frames { temp_file := none, loopRunning := true }
      = .error "Attempting to process frames before running the collector" := by
  refine ⟨rfl, ?_⟩
  exact (C10_process_frames_once (collector_run initCollector "t")
    { temp_file := none, loopRunning := true } rfl).2

end Rendering
